import Mathlib

/-!
Verification development for the ashari-api repository (files `main.py`, `config.py`).

Modelling conventions (shallow embedding of the Python source):
* a Python `str` is modelled as a `List Char` (a sequence of Unicode code points),
  abbreviated `PyStr`; string literals are written through `pystr`;
* Python integers are `Int` (or `Nat` where the source value is manifestly
  non-negative), with Python's floor division and modulo written `Int.fdiv` /
  `Int.fmod`;
* fallible code is modelled with `Except PyStr α`, the error string standing for
  the raised exception's message;
* outbound HTTP effects are recorded in explicit traces and their outcomes are
  supplied by environment records, so that every handler is a pure function of
  its request, its environment and the store state.

The modules `users.py` and `github_utils.py`, and the `get_user_by_api_key`
function referenced from `config.py`, are imported by `main.py` but are not part
of the repository snapshot; they are modelled from the spec where needed (each
such definition or parameter carries a `Modelled from the spec:` comment).
-/

/-- Model of a Python `str`: a list of Unicode code points. -/
abbrev PyStr := List Char

/-- Coercion from a Lean string literal to the `PyStr` model. -/
def pystr (s : String) : PyStr := s.toList

/-- Python `str.isspace`-style whitespace test, restricted to the ASCII
whitespace characters that `str.strip()` removes (the filenames and inputs the
source strips never contain the wider Unicode space set). -/
def isPySpace (c : Char) : Bool :=
  c = ' ' || c = '\t' || c = '\n' || c = '\r' || c = Char.ofNat 11 || c = Char.ofNat 12

/-- Model of Python `str.strip()`: drop leading and trailing whitespace. -/
def pyStrip (s : PyStr) : PyStr :=
  ((s.dropWhile isPySpace).reverse.dropWhile isPySpace).reverse

/-- Model of Python `str.lower()` (ASCII case folding; the source only tests
the ASCII directive `"save as:"` against it). -/
def pyLower (s : PyStr) : PyStr := s.map Char.toLower

/-- Model of Python's truthiness-based `or` on two strings:
`a or b` returns `a` when `a` is non-empty, else `b`. -/
def pyOrStr (a : Option PyStr) (b : PyStr) : PyStr :=
  match a with
  | some s => if s = [] then b else s
  | none => b

/-- Model of Python's `x_api_key or api_key` on two optional strings: the first
operand is returned when it is truthy (present and non-empty), otherwise the
second operand's value is returned as is. -/
def effectiveKey (x_api_key api_key : Option PyStr) : Option PyStr :=
  match x_api_key with
  | some k => if k = [] then api_key else some k
  | none => api_key

/-- Python truthiness of an optional string (`if not v:` succeeds on `None`
and on the empty string). -/
def optFalsy (v : Option PyStr) : Bool :=
  match v with
  | none => true
  | some s => s.isEmpty

/-- Fuel-indexed worker for `pyReplace`; consumes at least one character of the
subject per step, so `length` fuel suffices. -/
def pyReplaceFuel (pat repl : PyStr) : Nat → PyStr → PyStr
  | 0, l => l
  | _ + 1, [] => []
  | fuel + 1, c :: rest =>
    if pat ≠ [] ∧ pat.isPrefixOf (c :: rest) then
      repl ++ pyReplaceFuel pat repl fuel (List.drop pat.length (c :: rest))
    else
      c :: pyReplaceFuel pat repl fuel rest

/-- Model of Python `str.replace(pat, repl)`: replace every non-overlapping
occurrence of `pat`, scanning left to right (for an empty pattern the source
never calls it, and the model returns the subject unchanged). -/
def pyReplace (pat repl l : PyStr) : PyStr :=
  pyReplaceFuel pat repl l.length l

/-- Everything after the first occurrence of `sep`, modelling
`text.split(sep, 1)[1]` (the source only evaluates it when `sep` occurs). -/
def afterFirst (sep : Char) : PyStr → PyStr
  | [] => []
  | c :: rest => if c = sep then rest else afterFirst sep rest

/-- Model of Python `str.split(sep)` with a one-character separator. -/
def pySplit (sep : Char) : PyStr → List PyStr
  | [] => [[]]
  | c :: rest =>
    match pySplit sep rest with
    | [] => [[]]
    | part :: parts => if c = sep then [] :: part :: parts else (c :: part) :: parts

/-- The last `/`-separated segment of a path, modelling
`file_path.split("/")[-1]`. -/
def lastSegment (s : PyStr) : PyStr :=
  (s.reverse.takeWhile (fun c => c ≠ '/')).reverse

/-- Model of `os.path.join(a, b)` for the call sites in the source: when `b`
is absolute it replaces `a`, otherwise the two are joined with a slash. -/
def osJoin (a b : PyStr) : PyStr :=
  match b with
  | '/' :: _ => b
  | _ => a ++ ('/' :: b)

/-- The character class kept by the sanitizer's regular expression
`[^a-zA-Z0-9_\-./]` in `main.py` line 60. -/
def isAllowedChar (c : Char) : Bool :=
  ('a' ≤ c && c ≤ 'z') || ('A' ≤ c && c ≤ 'Z') || ('0' ≤ c && c ≤ '9') ||
    c = '_' || c = '-' || c = '.' || c = '/'

/-- Embedding of `sanitize_filename` (`main.py` lines 58-61).  Note that in the
repository snapshot both `replace` patterns on line 59 are the plain ASCII
apostrophe `U+0027` (the file is ASCII at that line), so the two replacements
are identical; they are kept separate here to mirror the source. -/
def sanitize_filename (name : PyStr) : PyStr :=
  let n1 := name.map (fun c => if c = '\'' then '-' else c)
  let n2 := n1.map (fun c => if c = '\'' then '-' else c)
  let n3 := n2.map (fun c => if c = ' ' then '_' else c)
  n3.filter isAllowedChar

/-- Every character of the sanitizer's output lies in the allowed class. -/
theorem sanitize_filename_mem_allowed {c : Char} {x : PyStr}
    (h : c ∈ sanitize_filename x) : isAllowedChar c = true := by
  simpa using List.of_mem_filter h

/-- An allowed character is neither an apostrophe nor a space (the two
characters the sanitizer rewrites). -/
theorem allowed_not_rewritten {c : Char} (h : isAllowedChar c = true) :
    c ≠ '\'' ∧ c ≠ ' ' := by
  constructor <;> rintro rfl <;> simp [isAllowedChar] at h

/-- An allowed character is not Python whitespace. -/
theorem allowed_not_space {c : Char} (h : isAllowedChar c = true) :
    isPySpace c = false := by
  by_contra hc
  have hsp : isPySpace c = true := by
    cases hx : isPySpace c
    · exact absurd hx hc
    · rfl
  simp only [isPySpace, Bool.or_eq_true, decide_eq_true_eq] at hsp
  rcases hsp with ((((h1 | h1) | h1) | h1) | h1) | h1 <;> subst h1 <;>
    simp [isAllowedChar] at h

/-- The sanitizer fixes any string made of allowed characters. -/
theorem sanitize_filename_of_allowed {y : PyStr}
    (h : ∀ c ∈ y, isAllowedChar c = true) : sanitize_filename y = y := by
  unfold sanitize_filename
  have h1 : y.map (fun c => if c = '\'' then '-' else c) = y := by
    have := List.map_congr_left (l := y)
      (f := fun c => if c = '\'' then '-' else c) (g := fun c => c)
      (fun c hc => by simp [(allowed_not_rewritten (h c hc)).1])
    simpa using this
  have h2 : y.map (fun c => if c = ' ' then '_' else c) = y := by
    have := List.map_congr_left (l := y)
      (f := fun c => if c = ' ' then '_' else c) (g := fun c => c)
      (fun c hc => by simp [(allowed_not_rewritten (h c hc)).2])
    simpa using this
  simp only [h1, h2]
  exact List.filter_eq_self.mpr h

/-- Dropping whitespace from the front of an all-allowed string is a no-op. -/
theorem dropWhile_space_of_allowed {y : PyStr}
    (h : ∀ c ∈ y, isAllowedChar c = true) : y.dropWhile isPySpace = y := by
  cases y with
  | nil => rfl
  | cons c rest =>
    rw [List.dropWhile_cons_of_neg]
    simp [allowed_not_space (h c (by simp))]

/-- Stripping a sanitized filename is a no-op: the sanitizer's output contains
no whitespace. -/
theorem pyStrip_sanitize (x : PyStr) :
    pyStrip (sanitize_filename x) = sanitize_filename x := by
  unfold pyStrip
  have hall : ∀ c ∈ sanitize_filename x, isAllowedChar c = true :=
    fun c hc => sanitize_filename_mem_allowed hc
  rw [dropWhile_space_of_allowed hall]
  rw [dropWhile_space_of_allowed (y := (sanitize_filename x).reverse)
    (fun c hc => hall c (List.mem_reverse.mp hc))]
  exact List.reverse_reverse _

/-- UTF-8 encoding of one code point as a byte list (standard 1-4 byte form;
every `Char` is a valid scalar value, so this is total). -/
def utf8EncChar (c : Char) : List Nat :=
  let n := c.toNat
  if n < 128 then [n]
  else if n < 2048 then [192 + n / 64, 128 + n % 64]
  else if n < 65536 then [224 + n / 4096, 128 + n / 64 % 64, 128 + n % 64]
  else [240 + n / 262144, 128 + n / 4096 % 64, 128 + n / 64 % 64, 128 + n % 64]

/-- UTF-8 encoding of a string, modelling Python `str.encode("utf-8")`. -/
def utf8Enc (s : PyStr) : List Nat := s.flatMap utf8EncChar

/-- UTF-8 decoding, modelling Python `bytes.decode("utf-8")`; fails on
malformed, overlong, surrogate or out-of-range sequences. -/
def utf8Dec : List Nat → Except PyStr PyStr
  | [] => .ok []
  | b :: rest =>
    if b < 128 then
      match utf8Dec rest with
      | .error e => .error e
      | .ok cs => .ok (Char.ofNat b :: cs)
    else if 192 ≤ b ∧ b < 224 then
      match rest with
      | c1 :: rest1 =>
        if 128 ≤ c1 ∧ c1 < 192 then
          let n := (b - 192) * 64 + (c1 - 128)
          if 128 ≤ n then
            match utf8Dec rest1 with
            | .error e => .error e
            | .ok cs => .ok (Char.ofNat n :: cs)
          else .error (pystr "UnicodeDecodeError")
        else .error (pystr "UnicodeDecodeError")
      | _ => .error (pystr "UnicodeDecodeError")
    else if 224 ≤ b ∧ b < 240 then
      match rest with
      | c1 :: c2 :: rest1 =>
        if (128 ≤ c1 ∧ c1 < 192) ∧ (128 ≤ c2 ∧ c2 < 192) then
          let n := (b - 224) * 4096 + (c1 - 128) * 64 + (c2 - 128)
          if 2048 ≤ n ∧ ¬ (55296 ≤ n ∧ n ≤ 57343) then
            match utf8Dec rest1 with
            | .error e => .error e
            | .ok cs => .ok (Char.ofNat n :: cs)
          else .error (pystr "UnicodeDecodeError")
        else .error (pystr "UnicodeDecodeError")
      | _ => .error (pystr "UnicodeDecodeError")
    else if 240 ≤ b ∧ b < 248 then
      match rest with
      | c1 :: c2 :: c3 :: rest1 =>
        if (128 ≤ c1 ∧ c1 < 192) ∧ (128 ≤ c2 ∧ c2 < 192) ∧ (128 ≤ c3 ∧ c3 < 192) then
          let n := (b - 240) * 262144 + (c1 - 128) * 4096 + (c2 - 128) * 64 + (c3 - 128)
          if 65536 ≤ n ∧ n ≤ 1114111 then
            match utf8Dec rest1 with
            | .error e => .error e
            | .ok cs => .ok (Char.ofNat n :: cs)
          else .error (pystr "UnicodeDecodeError")
        else .error (pystr "UnicodeDecodeError")
      | _ => .error (pystr "UnicodeDecodeError")
    else .error (pystr "UnicodeDecodeError")

/-- The base64 alphabet, in value order. -/
def b64Alphabet : PyStr :=
  pystr "ABCDEFGHIJKLMNOPQRSTUVWXYZabcdefghijklmnopqrstuvwxyz0123456789+/"

/-- The base64 digit character for a 6-bit value. -/
def b64Char (n : Nat) : Char := b64Alphabet.getD n 'A'

/-- Encode a byte list in base64, three bytes to four digits with `=`
padding. -/
def b64Groups : List Nat → PyStr
  | b1 :: b2 :: b3 :: rest =>
    let w := b1 * 65536 + b2 * 256 + b3
    b64Char (w / 262144 % 64) :: b64Char (w / 4096 % 64) :: b64Char (w / 64 % 64) ::
      b64Char (w % 64) :: b64Groups rest
  | [b1, b2] =>
    let w := b1 * 65536 + b2 * 256
    [b64Char (w / 262144 % 64), b64Char (w / 4096 % 64), b64Char (w / 64 % 64), '=']
  | [b1] =>
    let w := b1 * 65536
    [b64Char (w / 262144 % 64), b64Char (w / 4096 % 64), '=', '=']
  | [] => []

/-- Model of `base64.b64encode(content.encode("utf-8")).decode("utf-8")`
(`main.py` lines 441-442). -/
def b64encode (s : PyStr) : PyStr := b64Groups (utf8Enc s)

/-- The 6-bit value of a base64 digit computed positionally. -/
def b64ValueAux (c : Char) : Nat → PyStr → Option Nat
  | _, [] => none
  | i, d :: ds => if c = d then some i else b64ValueAux c (i + 1) ds

/-- Decode base64 digit groups to bytes; the digit count must not be
`1 mod 4`. -/
def b64Degroup : List Nat → Except PyStr (List Nat)
  | v1 :: v2 :: v3 :: v4 :: rest =>
    match b64Degroup rest with
    | .error e => .error e
    | .ok bs =>
      .ok ((v1 * 4 + v2 / 16) :: (v2 % 16 * 16 + v3 / 4) :: (v3 % 4 * 64 + v4) :: bs)
  | [v1, v2, v3] => .ok [v1 * 4 + v2 / 16, v2 % 16 * 16 + v3 / 4]
  | [v1, v2] => .ok [v1 * 4 + v2 / 16]
  | [_] => .error (pystr "binascii.Error: Invalid base64-encoded string")
  | [] => .ok []

/-- Model of `base64.b64decode(s).decode("utf-8")` as the source uses it
(`main.py` line 340): like the lenient standard-library decoder, characters
outside the alphabet are discarded, decoding stops at the first padding
character, and the decoded bytes are interpreted as UTF-8. -/
def b64decodeUtf8 (s : PyStr) : Except PyStr PyStr :=
  let digits := (s.takeWhile (fun c => c ≠ '=')).filterMap (fun c => b64ValueAux c 0 b64Alphabet)
  match b64Degroup digits with
  | .error e => .error e
  | .ok bs => utf8Dec bs

/-- True when `y` is a leap year of the proleptic Gregorian calendar. -/
def isLeapYear (y : Nat) : Bool := (y % 4 = 0 && y % 100 ≠ 0) || y % 400 = 0

/-- The number of days of month `m` in year `y`. -/
def daysInMonth (y m : Nat) : Nat :=
  if m = 2 then (if isLeapYear y then 29 else 28)
  else if m = 4 ∨ m = 6 ∨ m = 9 ∨ m = 11 then 30
  else 31

/-- Days in the years before year `y` (proleptic Gregorian). -/
def daysBeforeYear (y : Nat) : Nat :=
  365 * (y - 1) + (y - 1) / 4 - (y - 1) / 100 + (y - 1) / 400

/-- Days in year `y` before month `m`. -/
def daysBeforeMonth (y m : Nat) : Nat :=
  let base :=
    if m ≤ 1 then 0 else if m = 2 then 31 else if m = 3 then 59 else if m = 4 then 90
    else if m = 5 then 120 else if m = 6 then 151 else if m = 7 then 181
    else if m = 8 then 212 else if m = 9 then 243 else if m = 10 then 273
    else if m = 11 then 304 else 334
  if 3 ≤ m ∧ isLeapYear y then base + 1 else base

/-- Model of a Python `datetime.date` value: a calendar date. -/
structure Date where
  year : Nat
  month : Nat
  day : Nat
deriving DecidableEq, Repr

/-- Model of `date.toordinal()`: day number in the proleptic Gregorian
calendar, with day 1 being January 1 of year 1.  Subtraction of two dates in
Python yields a `timedelta` whose `.days` is the difference of ordinals. -/
def Date.toordinal (d : Date) : Int :=
  (daysBeforeYear d.year + daysBeforeMonth d.year d.month + d.day : Nat)

/-- Model of the `datetime.date(y, m, d)` constructor: validates the ranges
the Python constructor enforces, raising `ValueError` otherwise. -/
def pyDate (y m d : Nat) : Except PyStr Date :=
  if 1 ≤ y ∧ y ≤ 9999 ∧ 1 ≤ m ∧ m ≤ 12 ∧ 1 ≤ d ∧ d ≤ daysInMonth y m then
    .ok ⟨y, m, d⟩
  else .error (pystr "ValueError: invalid date")

/-- Model of Python `int(s)` on a string: optional surrounding whitespace,
an optional sign, then at least one decimal digit. -/
def pyInt (s : PyStr) : Except PyStr Int :=
  let t := pyStrip s
  let (sign, digits) : Int × PyStr :=
    match t with
    | '-' :: rest => (-1, rest)
    | '+' :: rest => (1, rest)
    | _ => (1, t)
  if digits ≠ [] ∧ digits.all (fun c => c.isDigit) then
    .ok (sign * (digits.foldl (fun acc c => acc * 10 + (c.toNat - 48)) 0 : Nat))
  else .error (pystr "ValueError: invalid literal for int")

/-- Embedding of `main.py` lines 40-41 (also repeated at lines 244-245):
`start_year, start_month, start_day = map(int, spiral_start.split("-"))`
followed by `date_type(start_year, start_month, start_day)`.  Unpacking a
split of the wrong arity, a non-numeric component, or an invalid calendar
date each raise `ValueError`. -/
def parse_spiral_start (spiral_start : PyStr) : Except PyStr Date :=
  match pySplit '-' spiral_start with
  | [ys, ms, ds] =>
    match pyInt ys, pyInt ms, pyInt ds with
    | .ok y, .ok m, .ok d =>
      if 0 ≤ y ∧ 0 ≤ m ∧ 0 ≤ d then pyDate y.toNat m.toNat d.toNat
      else .error (pystr "ValueError: invalid date")
    | _, _, _ => .error (pystr "ValueError: invalid literal for int")
  | _ => .error (pystr "ValueError: unpack")

/-- String rendering of an integer, modelling Python string interpolation of
an `int`. -/
def intToPyStr (i : Int) : PyStr := (toString i).toList

/-- String rendering of a natural number. -/
def natToPyStr (n : Nat) : PyStr := (toString n).toList

/-- Embedding of `calculate_spiral_date` (`main.py` lines 27-56).  The
`target_date` argument is optional as in the source (`None` falls back to
`date.today()`, supplied here as the explicit `today` argument); the start
date arrives as a `"YYYY-MM-DD"` string and is parsed as on lines 40-41.
Failure models the `ValueError` raised by the parse or by the negative-delta
guard. -/
def calculate_spiral_date (target_date : Option Date) (spiral_start : PyStr)
    (today : Date) : Except PyStr PyStr :=
  match parse_spiral_start spiral_start with
  | .error e => .error e
  | .ok start_date =>
    let target := target_date.getD today
    let delta : Int := target.toordinal - start_date.toordinal
    if delta < 0 then
      .error (pystr "Date is before spiral start date (" ++ spiral_start ++ pystr ")")
    else
      .ok (intToPyStr (delta.fdiv 9 + 1) ++ pystr "." ++ intToPyStr (delta.fmod 9 + 1))

/-- Modelled from the spec: the user record returned by `get_user_by_api_key`
(`config.py` references it but the function body is not in the snapshot; §3
UserAccount maps an API credential to a display name and an epoch date, and
`main.py` reads the keys `"name"` and `"spiral_start_date"`). -/
structure UserConfig where
  name : PyStr
  spiral_start_date : PyStr
deriving DecidableEq

/-- The mutable state under `/tmp/scrolls`: the per-chat session files
`last_filename_{chat_id}.txt` and the captured scroll files. -/
structure ScrollStore where
  lastFilename : Int → Option PyStr
  files : PyStr → Option PyStr

/-- The store with no session file and no scroll written. -/
def initialStore : ScrollStore := ⟨fun _ => none, fun _ => none⟩

/-- Write a scroll file (`aiofiles.open(filepath, "w")` / binary write). -/
def writeFile (st : ScrollStore) (path content : PyStr) : ScrollStore :=
  { st with files := fun p => if p = path then some content else st.files p }

/-- Embedding of the session-store write on `main.py` lines 92-93: the
`"save as:"` branch overwrites `/tmp/scrolls/last_filename_{chat_id}.txt`
with the sanitized filename. -/
def session_set (st : ScrollStore) (chat_id : Int) (filename : PyStr) : ScrollStore :=
  { st with lastFilename := fun c => if c = chat_id then some filename else st.lastFilename c }

/-- Embedding of `get_last_filename` (`main.py` lines 63-68): read the session
file and strip it, or `None` when the file does not exist (the bare `except`
returns `None` on any read failure). -/
def get_last_filename (st : ScrollStore) (chat_id : Int) : Option PyStr :=
  (st.lastFilename chat_id).map pyStrip

/-- The filename resolution of the text-content path (`main.py` line 96):
`sanitize_filename(get_last_filename(chat_id) or "scroll.md")`. -/
def resolveTextFilename (st : ScrollStore) (chat_id : Int) : PyStr :=
  sanitize_filename (pyOrStr (get_last_filename st chat_id) (pystr "scroll.md"))

/-- The outbound side effects of the webhook handler, recorded in order of
attempt. -/
inductive Effect
  | sendReply (chat_id : Int) (text : PyStr)
  | commitGithub (filename filepath : PyStr)
  | telegramGetFile (file_id : PyStr)
  | telegramDownload (file_path : PyStr)
deriving DecidableEq

/-- The environment of one webhook invocation: the clock, the outcome of each
outbound call, and the user directory.  `get_username` is Modelled from the
spec: `users.py` is not in the snapshot, and §4.3 says the author field is the
resolved display name for the chat. -/
structure WebhookEnv where
  get_username : Int → PyStr
  nowDate : PyStr
  nowIso : PyStr
  sendOutcome : Except PyStr Unit
  commitOutcome : Except PyStr Unit
  getFileOutcome : Except PyStr PyStr
  downloadOutcome : Except PyStr PyStr

/-- The shape of one parsed Telegram update as the handler reads it: a message
with text, a message with a photo (the handler uses the last photo's
`file_id`), a message with neither, or no message at all.  Payloads whose
field accesses would raise (`data["message"]["chat"]["id"]` on a malformed
update, or `request.json()` failing) are modelled by the `.error` case of the
handler's input. -/
inductive TgUpdate
  | noMessage
  | textMsg (chat_id : Int) (text : PyStr)
  | photoMsg (chat_id : Int) (file_id : PyStr)
  | otherMsg (chat_id : Int)

/-- The pattern that the repository snapshot's line 102 actually replaces: the
two curly-quote arguments were lost to ASCII, so the line parses as two
identity replacements of the apostrophe followed by one replacement of this
fifteen-character literal with a double quote (verified against the Python
grammar). -/
def mangledQuotePat : PyStr := pystr ", '\"').replace("

/-- Embedding of `main.py` line 102 as it stands in the snapshot:
`text.replace("'", "'").replace("'", "'").replace(", '\"').replace(", '"')`.
Both apostrophe replacements are identities, and the third call replaces the
literal `mangledQuotePat` with a double quote; no smart-quote character is
touched. -/
def pyNormalizeQuotes (text : PyStr) : PyStr :=
  let t1 := text.map (fun c => if c = '\'' then '\'' else c)
  let t2 := t1.map (fun c => if c = '\'' then '\'' else c)
  pyReplace mangledQuotePat (pystr "\"") t2

/-- Model of `yaml.dump(d, sort_keys=False)` for the frontmatter dictionary:
one `key: value` line per entry, in insertion order (the values the handler
passes are plain scalars). -/
def yamlDump (kvs : List (PyStr × PyStr)) : PyStr :=
  kvs.flatMap (fun kv => kv.1 ++ pystr ": " ++ kv.2 ++ pystr "\n")

/-- The result of running the body of the webhook handler: the outcome of the
`try` block, the state after it (mutations before a raise persist), and the
trace of attempted outbound calls. -/
structure WebhookRunResult where
  outcome : Except PyStr Unit
  store : ScrollStore
  effects : List Effect

/-- Embedding of the `try` block of `receive_telegram_update` (`main.py`
lines 80-136). -/
def webhookRun (env : WebhookEnv) (st : ScrollStore) (data : Except PyStr TgUpdate) :
    WebhookRunResult :=
  match data with
  | .error e => ⟨.error e, st, []⟩
  | .ok .noMessage => ⟨.ok (), st, []⟩
  | .ok (.otherMsg _) => ⟨.ok (), st, []⟩
  | .ok (.textMsg chat_id text) =>
    if (pystr "save as:").isPrefixOf (pyLower text) then
      let raw_name := pyStrip (afterFirst ':' text)
      let filename := sanitize_filename raw_name
      let st1 := session_set st chat_id filename
      let effs := [Effect.sendReply chat_id (pystr "✅ Filename set: " ++ filename)]
      match env.sendOutcome with
      | .ok _ => ⟨.ok (), st1, effs⟩
      | .error e => ⟨.error e, st1, effs⟩
    else
      let filename := resolveTextFilename st chat_id
      let filepath := osJoin (pystr "/tmp/scrolls") filename
      let text1 :=
        if (pystr "---").isPrefixOf (pyStrip text) then text
        else
          let t := pyNormalizeQuotes text
          let fm := yamlDump [(pystr "title", filename),
            (pystr "author", env.get_username chat_id),
            (pystr "date", env.nowDate), (pystr "timestamp", env.nowIso)]
          pystr "---\n" ++ fm ++ pystr "---\n\n" ++ t
      let st1 := writeFile st filepath text1
      let effs := [Effect.commitGithub filename filepath]
      match env.commitOutcome with
      | .error e => ⟨.error e, st1, effs⟩
      | .ok _ =>
        let effs2 := effs ++ [Effect.sendReply chat_id
          (pystr "✅ Scroll saved as `" ++ filename ++ pystr "`")]
        match env.sendOutcome with
        | .ok _ => ⟨.ok (), st1, effs2⟩
        | .error e => ⟨.error e, st1, effs2⟩
  | .ok (.photoMsg chat_id file_id) =>
    let effs := [Effect.telegramGetFile file_id]
    match env.getFileOutcome with
    | .error e => ⟨.error e, st, effs⟩
    | .ok file_path =>
      let filename := sanitize_filename
        (pyOrStr (get_last_filename st chat_id) (lastSegment file_path))
      let local_path := osJoin (pystr "/tmp/scrolls") filename
      let effs2 := effs ++ [Effect.telegramDownload file_path]
      match env.downloadOutcome with
      | .error e => ⟨.error e, st, effs2⟩
      | .ok img =>
        let st1 := writeFile st local_path img
        let effs3 := effs2 ++ [Effect.commitGithub filename local_path]
        match env.commitOutcome with
        | .error e => ⟨.error e, st1, effs3⟩
        | .ok _ =>
          let effs4 := effs3 ++ [Effect.sendReply chat_id
            (pystr "🖼️ Image saved as `" ++ filename ++ pystr "`")]
          match env.sendOutcome with
          | .ok _ => ⟨.ok (), st1, effs4⟩
          | .error e => ⟨.error e, st1, effs4⟩

/-- The HTTP response of the webhook endpoint: a status code and the JSON
body `ok` / optional `error` fields. -/
structure WebhookResponse where
  status : Nat
  ok : Bool
  error : Option PyStr
deriving DecidableEq

/-- Embedding of `receive_telegram_update` (`main.py` lines 78-141): the whole
body runs inside `try`, a normal return yields `200 {ok: true}`, and the
`except Exception` arm yields `200 {ok: false, error: str(e)}`. -/
def receive_telegram_update (env : WebhookEnv) (st : ScrollStore)
    (data : Except PyStr TgUpdate) : WebhookResponse × ScrollStore × List Effect :=
  match webhookRun env st data with
  | ⟨.ok _, st1, effs⟩ => (⟨200, true, none⟩, st1, effs)
  | ⟨.error e, st1, effs⟩ => (⟨200, false, some e⟩, st1, effs)

/-- The JSON payload of the outbound GitHub `PUT` request (`main.py` lines
444-452): the `sha` key is present only when the truthiness test on line 451
passes. -/
structure PutPayload where
  message : PyStr
  content : PyStr
  branch : PyStr
  sha : Option PyStr
deriving DecidableEq

/-- One outbound call to the GitHub contents API, recorded at the moment the
request is issued. -/
inductive GhCall
  | contentsGet (path : PyStr)
  | contentsPut (path : PyStr) (payload : PutPayload)
deriving DecidableEq

/-- The remote side of one proxy-write invocation: the status of the
existence lookup, the `"sha"` field of its JSON body (`none` when the body has
no such key), the status of the `PUT`, and the relevant fields of the `PUT`
response body (`none` when the body is not JSON or lacks them). -/
structure GhWriteEnv where
  lookupStatus : Nat
  lookupSha : Option PyStr
  putStatus : Nat
  putBody : Option (PyStr × PyStr)
deriving DecidableEq

/-- The response of the proxy-write endpoint, one constructor per `return`
site of `write_github_file` in the source. -/
inductive WriteResp
  | authRequired
  | authInvalid
  | badRequest
  | githubApiError (status : Nat)
  | serverError (msg : PyStr)
  | success (path content_sha commit_sha user_name message : PyStr)
deriving DecidableEq

/-- The HTTP status code each proxy-write response carries. -/
def WriteResp.httpStatus : WriteResp → Nat
  | .authRequired => 401
  | .authInvalid => 403
  | .badRequest => 400
  | .githubApiError s => s
  | .serverError _ => 500
  | .success _ _ _ _ _ => 200

/-- The request body of the proxy-write endpoint as a JSON object with the
three keys the handler reads through `.get` (absent keys give `None`). -/
structure WriteBodyJson where
  path : Option PyStr
  content : Option PyStr
  message : Option PyStr
deriving DecidableEq

/-- Embedding of `write_github_file` (`main.py` lines 375-490).  The
`get_user_by_api_key` directory is a parameter (Modelled from the spec: its
definition is not in the snapshot); `body` is the parsed JSON request body,
`.error` standing for a body `request.json()` fails on; `gh` supplies the
upstream responses.  The returned trace lists the GitHub calls in order of
issue. -/
def write_github_file (x_api_key api_key : Option PyStr)
    (get_user_by_api_key : PyStr → Option UserConfig)
    (body : Except PyStr WriteBodyJson) (gh : GhWriteEnv) : WriteResp × List GhCall :=
  let key := effectiveKey x_api_key api_key
  if optFalsy key then (.authRequired, [])
  else
    match key with
    | none => (.authRequired, [])
    | some k =>
      match get_user_by_api_key k with
      | none => (.authInvalid, [])
      | some user_config =>
        match body with
        | .error e => (.serverError e, [])
        | .ok b =>
          let commit_message := b.message.getD
            (pystr "Add " ++ (match b.path with | some p => p | none => pystr "None"))
          if optFalsy b.path || optFalsy b.content then (.badRequest, [])
          else
            match b.path, b.content with
            | some file_path, some content =>
              let calls1 := [GhCall.contentsGet file_path]
              if gh.lookupStatus = 200 ∧ gh.lookupSha = none then
                (.serverError (pystr "KeyError: sha"), calls1)
              else
                let sha : Option PyStr :=
                  if gh.lookupStatus = 200 then gh.lookupSha else none
                let payload : PutPayload :=
                  { message := commit_message, content := b64encode content,
                    branch := pystr "main",
                    sha := match sha with
                      | some h => if h = [] then none else some h
                      | none => none }
                let calls2 := calls1 ++ [GhCall.contentsPut file_path payload]
                if 400 ≤ gh.putStatus ∧ gh.putStatus < 600 then
                  (.githubApiError gh.putStatus, calls2)
                else
                  match gh.putBody with
                  | none => (.serverError (pystr "JSONDecodeError"), calls2)
                  | some (content_sha, commit_sha) =>
                    (.success file_path content_sha commit_sha user_config.name
                      commit_message, calls2)
            | _, _ => (.badRequest, [])

/-- The remote side of one proxy-read invocation: the status of the contents
`GET` and the fields of its JSON body when it has them. -/
structure GhReadEnv where
  status : Nat
  content : Option PyStr
  sha : PyStr
  size : Nat
deriving DecidableEq

/-- The response of the proxy-read endpoint, one constructor per `return`
site of `read_github_file` in the source. -/
inductive ReadResp
  | authRequired
  | authInvalid
  | notFound (path : PyStr)
  | githubApiError (status : Nat)
  | serverError (msg : PyStr)
  | success (path content sha : PyStr) (size : Nat) (user_name : PyStr)
deriving DecidableEq

/-- The HTTP status code each proxy-read response carries. -/
def ReadResp.httpStatus : ReadResp → Nat
  | .authRequired => 401
  | .authInvalid => 403
  | .notFound _ => 404
  | .githubApiError s => s
  | .serverError _ => 500
  | .success _ _ _ _ _ => 200

/-- Embedding of `read_github_file` (`main.py` lines 288-371): the
authentication gate, then the contents `GET` (issued exactly once, recorded in
the trace), the 404 branch, `raise_for_status` (an `HTTPError` is raised for
statuses 400-599 and its status is echoed), and base64 plus UTF-8 decoding of
the body, any decode failure falling to the generic 500 arm. -/
def read_github_file (file_path : PyStr) (x_api_key api_key : Option PyStr)
    (get_user_by_api_key : PyStr → Option UserConfig)
    (gh : GhReadEnv) : ReadResp × List GhCall :=
  let key := effectiveKey x_api_key api_key
  if optFalsy key then (.authRequired, [])
  else
    match key with
    | none => (.authRequired, [])
    | some k =>
      match get_user_by_api_key k with
      | none => (.authInvalid, [])
      | some user_config =>
        let calls := [GhCall.contentsGet file_path]
        if gh.status = 404 then (.notFound file_path, calls)
        else if 400 ≤ gh.status ∧ gh.status < 600 then (.githubApiError gh.status, calls)
        else
          match gh.content with
          | none => (.serverError (pystr "KeyError: content"), calls)
          | some content_b64 =>
            match b64decodeUtf8 content_b64 with
            | .error e => (.serverError e, calls)
            | .ok content =>
              (.success file_path content gh.sha gh.size user_config.name, calls)

/-- Model of `datetime.strptime(s, "%Y-%m-%d").date()`: three dash-separated
groups, a four-digit year, a one- or two-digit month in 1-12, a one- or
two-digit day in 1-31, then the `datetime` constructor's calendar
validation.  Any failure raises `ValueError`. -/
def pyStrptimeDate (s : PyStr) : Except PyStr Date :=
  match pySplit '-' s with
  | [ys, ms, ds] =>
    if (ys.length = 4 ∧ ys.all Char.isDigit) ∧
        ((ms.length = 1 ∨ ms.length = 2) ∧ ms.all Char.isDigit) ∧
        ((ds.length = 1 ∨ ds.length = 2) ∧ ds.all Char.isDigit) then
      let y := ys.foldl (fun acc c => acc * 10 + (c.toNat - 48)) 0
      let m := ms.foldl (fun acc c => acc * 10 + (c.toNat - 48)) 0
      let d := ds.foldl (fun acc c => acc * 10 + (c.toNat - 48)) 0
      if 1 ≤ m ∧ m ≤ 12 ∧ 1 ≤ d ∧ d ≤ 31 then pyDate y m d
      else .error (pystr "ValueError: time data does not match format")
    else .error (pystr "ValueError: time data does not match format")
  | _ => .error (pystr "ValueError: time data does not match format")

/-- Zero-padded decimal rendering of width two. -/
def pad2 (n : Nat) : PyStr :=
  if n < 10 then '0' :: natToPyStr n else natToPyStr n

/-- Zero-padded decimal rendering of width four. -/
def pad4 (n : Nat) : PyStr :=
  if n < 10 then pystr "000" ++ natToPyStr n
  else if n < 100 then pystr "00" ++ natToPyStr n
  else if n < 1000 then '0' :: natToPyStr n
  else natToPyStr n

/-- Model of `date.isoformat()`. -/
def dateIso (d : Date) : PyStr :=
  pad4 d.year ++ pystr "-" ++ pad2 d.month ++ pystr "-" ++ pad2 d.day

/-- The response of the spiral-date endpoint, one constructor per `return`
site of `get_spiral_date` in the source. -/
inductive SpiralResp
  | authRequired
  | authInvalid
  | badRequest (msg : PyStr)
  | shortText (s : PyStr)
  | jsonOk (spiral_date display calendar_date timestamp user_name
      spiral_start_date : PyStr) (days_elapsed : Int)
  | serverError (msg : PyStr)
deriving DecidableEq

/-- The HTTP status code each spiral-date response carries (the short format
returns a 200 plain-text response). -/
def SpiralResp.httpStatus : SpiralResp → Nat
  | .authRequired => 401
  | .authInvalid => 403
  | .badRequest _ => 400
  | .shortText _ => 200
  | .jsonOk _ _ _ _ _ _ _ => 200
  | .serverError _ => 500

/-- Embedding of `get_spiral_date` (`main.py` lines 178-284).  The clock is
passed in (`today` for `date.today()`, `now_iso` for the Eastern-time
`now.isoformat()`); the query parameters arrive as optional strings; a `None`
or empty `target_date` falls back to today (the source tests `if
target_date:`); `ValueError` from the parse or the calculator maps to 400. -/
def get_spiral_date (x_api_key api_key : Option PyStr)
    (get_user_by_api_key : PyStr → Option UserConfig)
    (target_date : Option PyStr) (format : Option PyStr)
    (today : Date) (now_iso : PyStr) : SpiralResp :=
  let key := effectiveKey x_api_key api_key
  if optFalsy key then .authRequired
  else
    match key with
    | none => .authRequired
    | some k =>
      match get_user_by_api_key k with
      | none => .authInvalid
      | some user_config =>
        let parsed : Except PyStr Date :=
          match target_date with
          | some s => if s = [] then .ok today else pyStrptimeDate s
          | none => .ok today
        match parsed with
        | .error e => .badRequest e
        | .ok parsed_date =>
          match calculate_spiral_date (some parsed_date) user_config.spiral_start_date
              today with
          | .error e => .badRequest e
          | .ok sd =>
            if format = some (pystr "short") then .shortText sd
            else
              match parse_spiral_start user_config.spiral_start_date with
              | .error e => .badRequest e
              | .ok start_date =>
                .jsonOk sd (pystr "spiral day " ++ sd) (dateIso parsed_date) now_iso
                  user_config.name user_config.spiral_start_date
                  (parsed_date.toordinal - start_date.toordinal)

/-- How an endpoint's response classifies with respect to the authentication
gate: rejected for a missing credential, rejected for an unrecognized one, or
past the gate. -/
inductive AuthClass
  | required
  | invalid
  | passed
deriving DecidableEq

/-- The authentication classification of a proxy-write response. -/
def WriteResp.authClass : WriteResp → AuthClass
  | .authRequired => .required
  | .authInvalid => .invalid
  | _ => .passed

/-- The authentication classification of a proxy-read response. -/
def ReadResp.authClass : ReadResp → AuthClass
  | .authRequired => .required
  | .authInvalid => .invalid
  | _ => .passed

/-- The authentication classification of a spiral-date response. -/
def SpiralResp.authClass : SpiralResp → AuthClass
  | .authRequired => .required
  | .authInvalid => .invalid
  | _ => .passed

/-- Shared concrete user directory for witnesses and counterexamples: one
recognized credential. -/
def usersFx : PyStr → Option UserConfig :=
  fun k => if k = pystr "key-1" then some ⟨pystr "alice", pystr "2024-01-01"⟩ else none

/-- C4: the filename sanitizer is idempotent: for every input string x,
sanitize(sanitize(x)) equals sanitize(x); sanitizing a string that is already
sanitizer output returns it unchanged. -/
theorem claim_C4_sanitize_idempotent (x : PyStr) :
    sanitize_filename (sanitize_filename x) = sanitize_filename x :=
  sanitize_filename_of_allowed (fun _ hc => sanitize_filename_mem_allowed hc)

/-- C5 counterexample: on the right single quotation mark U+2019 (a curly
apostrophe) the sanitizer yields the empty string, not the hyphen the claim's
replaced-by-a-hyphen clause requires; in the repository snapshot both
`replace` patterns of line 59 are the ASCII apostrophe, so curly quotes reach
the stripping step and are removed. -/
theorem claim_C5_counterexample :
    sanitize_filename [Char.ofNat 8217] = [] ∧
    ([] : PyStr) ≠ [Char.ofNat 45] := by
  constructor
  · decide
  · decide

/-- C5 (amended): for every input string the sanitizer's output contains only
characters in the allowed class; the computation rewrites ASCII apostrophes to
a hyphen and spaces to an underscore before stripping every character outside
the class (curly quotes among them); input consisting only of characters that
are neither allowed nor rewritten yields the empty string. -/
theorem claim_C5_sanitize_allowed_output (x : PyStr) :
    ((sanitize_filename x).all isAllowedChar = true) ∧
    (sanitize_filename x =
      ((x.map (fun c => if c = '\'' then '-' else c)).map
        (fun c => if c = ' ' then '_' else c)).filter isAllowedChar) ∧
    ((∀ c ∈ x, isAllowedChar c = false ∧ c ≠ '\'' ∧ c ≠ ' ') →
      sanitize_filename x = []) := by
  refine ⟨?_, ?_, ?_⟩
  · exact List.all_eq_true.mpr (fun c hc => by
      simpa using sanitize_filename_mem_allowed hc)
  · unfold sanitize_filename
    have hmm : (x.map (fun c => if c = '\'' then '-' else c)).map
        (fun c => if c = '\'' then '-' else c) =
        x.map (fun c => if c = '\'' then '-' else c) := by
      rw [List.map_map]
      refine List.map_congr_left (fun c _ => ?_)
      by_cases hc : c = '\'' <;> simp [hc]
    simp only [hmm]
  · intro h
    unfold sanitize_filename
    have h1 : x.map (fun c => if c = '\'' then '-' else c) = x := by
      have := List.map_congr_left (l := x)
        (f := fun c => if c = '\'' then '-' else c) (g := fun c => c)
        (fun c hc => by simp [(h c hc).2.1])
      simpa using this
    have h2 : x.map (fun c => if c = ' ' then '_' else c) = x := by
      have := List.map_congr_left (l := x)
        (f := fun c => if c = ' ' then '_' else c) (g := fun c => c)
        (fun c hc => by simp [(h c hc).2.2])
      simpa using this
    simp only [h1, h2]
    exact List.filter_eq_nil_iff.mpr (fun c hc => by simp [(h c hc).1])

/-- C5 witness: a string of characters that are neither allowed nor rewritten
sanitizes to the empty string. -/
theorem claim_C5_witness : sanitize_filename (pystr "!?") = [] :=
  (claim_C5_sanitize_allowed_output (pystr "!?")).2.2 (by decide)

/-- Python floor division of a non-negative integer by 9, expressed through
natural division. -/
theorem fdiv_nine_eq_toNat (a : Int) (h : 0 ≤ a) :
    a.fdiv 9 = ((a.toNat / 9 : Nat) : Int) := by
  rw [Int.fdiv_eq_tdiv h (by norm_num)]
  rw [← Int.toNat_of_nonneg h]
  exact_mod_cast rfl

/-- Python floor modulo of a non-negative integer by 9, expressed through
natural modulo. -/
theorem fmod_nine_eq_toNat (a : Int) (h : 0 ≤ a) :
    a.fmod 9 = ((a.toNat % 9 : Nat) : Int) := by
  rw [Int.fmod_eq_tmod h (by norm_num)]
  rw [← Int.toNat_of_nonneg h]
  exact_mod_cast rfl

/-- Rendering a natural number through the integer renderer agrees with the
natural renderer. -/
theorem intToPyStr_ofNat (n : Nat) : intToPyStr ((n : Nat) : Int) = natToPyStr n := rfl

/-- C1: for every start string that parses to an epoch date, the spiral
calculator fails exactly when the whole-day delta from epoch to target is
negative, and for every delta at least zero it returns
"cycleNumber.cycleDay" with cycleNumber = delta div 9 + 1 and cycleDay =
delta mod 9 + 1; in particular the epoch itself yields "1.1", epoch plus
eight days "1.9", and epoch plus nine days "2.1". -/
theorem claim_C1_calculator (s : PyStr) (start : Date)
    (hs : parse_spiral_start s = .ok start) (target today : Date) :
    ((∃ e, calculate_spiral_date (some target) s today = .error e) ↔
      target.toordinal - start.toordinal < 0) ∧
    (0 ≤ target.toordinal - start.toordinal →
      calculate_spiral_date (some target) s today =
        .ok (natToPyStr ((target.toordinal - start.toordinal).toNat / 9 + 1) ++
          pystr "." ++
          natToPyStr ((target.toordinal - start.toordinal).toNat % 9 + 1))) ∧
    (calculate_spiral_date (some start) s today = .ok (pystr "1.1")) ∧
    (∀ t : Date, t.toordinal = start.toordinal + 8 →
      calculate_spiral_date (some t) s today = .ok (pystr "1.9")) ∧
    (∀ t : Date, t.toordinal = start.toordinal + 9 →
      calculate_spiral_date (some t) s today = .ok (pystr "2.1")) := by
  have hrun : ∀ t : Date, calculate_spiral_date (some t) s today =
      (if t.toordinal - start.toordinal < 0 then
        .error (pystr "Date is before spiral start date (" ++ s ++ pystr ")")
      else
        .ok (intToPyStr ((t.toordinal - start.toordinal).fdiv 9 + 1) ++ pystr "." ++
          intToPyStr ((t.toordinal - start.toordinal).fmod 9 + 1))) := by
    intro t
    unfold calculate_spiral_date
    rw [hs]
    rfl
  have hok : ∀ t : Date, 0 ≤ t.toordinal - start.toordinal →
      calculate_spiral_date (some t) s today =
        .ok (natToPyStr ((t.toordinal - start.toordinal).toNat / 9 + 1) ++ pystr "." ++
          natToPyStr ((t.toordinal - start.toordinal).toNat % 9 + 1)) := by
    intro t ht
    rw [hrun t, if_neg (by omega)]
    rw [fdiv_nine_eq_toNat _ ht, fmod_nine_eq_toNat _ ht]
    have hcast : ∀ m : Nat, ((m : Int) + 1) = (((m + 1 : Nat) : Nat) : Int) := by
      intro m; push_cast; ring
    rw [hcast, hcast, intToPyStr_ofNat, intToPyStr_ofNat]
  refine ⟨?_, hok target, ?_, ?_, ?_⟩
  · constructor
    · rintro ⟨e, he⟩
      by_contra hlt
      rw [hrun target, if_neg hlt] at he
      exact Except.noConfusion he
    · intro hlt
      exact ⟨_, by rw [hrun target, if_pos hlt]⟩
  · have h0 : start.toordinal - start.toordinal = 0 := by omega
    rw [hrun start, h0, if_neg (by norm_num)]
    rfl
  · intro t ht
    have h8 : t.toordinal - start.toordinal = 8 := by omega
    rw [hrun t, h8, if_neg (by norm_num)]
    rfl
  · intro t ht
    have h9 : t.toordinal - start.toordinal = 9 := by omega
    rw [hrun t, h9, if_neg (by norm_num)]
    rfl

/-- C1 witness: with the epoch 2024-01-01 the calculator yields "1.1" on the
epoch itself and, nine days later, "2.1". -/
theorem claim_C1_witness :
    calculate_spiral_date (some ⟨2024, 1, 1⟩) (pystr "2024-01-01") ⟨2024, 1, 1⟩ =
      .ok (pystr "1.1") ∧
    calculate_spiral_date (some ⟨2024, 1, 10⟩) (pystr "2024-01-01") ⟨2024, 1, 1⟩ =
      .ok (pystr "2.1") := by
  constructor
  · exact (claim_C1_calculator (pystr "2024-01-01") ⟨2024, 1, 1⟩ rfl
      ⟨2024, 1, 1⟩ ⟨2024, 1, 1⟩).2.2.1
  · exact (claim_C1_calculator (pystr "2024-01-01") ⟨2024, 1, 1⟩ rfl
      ⟨2024, 1, 10⟩ ⟨2024, 1, 1⟩).2.2.2.2 ⟨2024, 1, 10⟩ (by decide)

/-- C3: for every environment, store state and inbound request (including
every request whose handling raises, modelled by an error outcome anywhere in
the body), the webhook endpoint responds with HTTP status 200 and a body of
shape ok-flag plus optional error string: the success body carries no error
and the failure body carries one, and no internal failure surfaces as a
non-200 status. -/
theorem claim_C3_webhook_always_200 (env : WebhookEnv) (st : ScrollStore)
    (data : Except PyStr TgUpdate) :
    (receive_telegram_update env st data).1.status = 200 ∧
    (((receive_telegram_update env st data).1.ok = true ∧
        (receive_telegram_update env st data).1.error = none) ∨
      ((receive_telegram_update env st data).1.ok = false ∧
        ∃ e, (receive_telegram_update env st data).1.error = some e)) := by
  unfold receive_telegram_update
  rcases hr : webhookRun env st data with ⟨outcome, st1, effs⟩
  cases outcome <;> simp

/-- C6: the session store retains only the latest value per chat: a set
followed by a get returns the value just set, a second set overwrites the
first, a chat that never had a set reads as absent, and the text-content
path resolves an absent value to the fixed default name "scroll.md".  The
values written by the code are sanitizer outputs, so the theorem quantifies
over the raw names being sanitized, exactly as the handler stores them. -/
theorem claim_C6_session_store :
    (∀ (st : ScrollStore) (c : Int) (ra : PyStr),
      get_last_filename (session_set st c (sanitize_filename ra)) c =
        some (sanitize_filename ra)) ∧
    (∀ (st : ScrollStore) (c : Int) (ra rb : PyStr),
      get_last_filename
        (session_set (session_set st c (sanitize_filename ra)) c
          (sanitize_filename rb)) c = some (sanitize_filename rb)) ∧
    (∀ c : Int, get_last_filename initialStore c = none) ∧
    (∀ (st : ScrollStore) (c : Int), get_last_filename st c = none →
      resolveTextFilename st c = pystr "scroll.md") := by
  refine ⟨?_, ?_, ?_, ?_⟩
  · intro st c ra
    simp [get_last_filename, session_set, pyStrip_sanitize]
  · intro st c ra rb
    simp [get_last_filename, session_set, pyStrip_sanitize]
  · intro c
    rfl
  · intro st c h
    unfold resolveTextFilename
    rw [h]
    rfl

/-- C6 witness: a never-set chat reads as absent and the text path resolves
it to the default name. -/
theorem claim_C6_witness :
    get_last_filename initialStore 7 = none ∧
    resolveTextFilename initialStore 7 = pystr "scroll.md" :=
  ⟨rfl, claim_C6_session_store.2.2.2 initialStore 7 rfl⟩

/-- C7: for every proxy-write request carrying a valid credential whose JSON
body is missing the path field or missing the content field, the endpoint
responds 400 BadRequest and issues no GitHub call (neither the revision
lookup nor the write): the returned trace is empty. -/
theorem claim_C7_missing_fields (x_api_key api_key : Option PyStr)
    (users : PyStr → Option UserConfig) (k : PyStr) (u : UserConfig)
    (b : WriteBodyJson) (gh : GhWriteEnv)
    (hk : effectiveKey x_api_key api_key = some k) (hne : k ≠ [])
    (hu : users k = some u)
    (hmiss : b.path = none ∨ b.content = none) :
    write_github_file x_api_key api_key users (.ok b) gh = (.badRequest, []) ∧
    WriteResp.httpStatus .badRequest = 400 := by
  refine ⟨?_, rfl⟩
  unfold write_github_file
  have hfal : optFalsy (some k) = false := by
    simp [optFalsy, List.isEmpty_iff, hne]
  have hmb : (optFalsy b.path || optFalsy b.content) = true := by
    rcases hmiss with h | h <;> simp [h, optFalsy]
  simp only [hk, hfal, hu, hmb, Bool.false_eq_true, if_false, if_true]

/-- C7 witness: an authenticated request whose body has no path field gets a
400 response and an empty call trace. -/
theorem claim_C7_witness :
    write_github_file (some (pystr "key-1")) none usersFx
      (.ok ⟨none, some (pystr "hello"), none⟩) ⟨404, none, 201, none⟩ =
      (.badRequest, []) :=
  (claim_C7_missing_fields (some (pystr "key-1")) none usersFx (pystr "key-1")
    ⟨pystr "alice", pystr "2024-01-01"⟩ ⟨none, some (pystr "hello"), none⟩
    ⟨404, none, 201, none⟩ (by decide) (by decide) (by decide) (Or.inl rfl)).1

/-- C10: a proxy-write request with a valid credential whose body supplies the
path and content fields but with one of them equal to the empty string is
answered 400 exactly as for an absent field, with no GitHub call issued: the
guard tests falsiness rather than presence. -/
theorem claim_C10_empty_fields (x_api_key api_key : Option PyStr)
    (users : PyStr → Option UserConfig) (k : PyStr) (u : UserConfig)
    (b : WriteBodyJson) (gh : GhWriteEnv)
    (hk : effectiveKey x_api_key api_key = some k) (hne : k ≠ [])
    (hu : users k = some u)
    (hmiss : b.path = some [] ∨ b.content = some []) :
    write_github_file x_api_key api_key users (.ok b) gh = (.badRequest, []) ∧
    WriteResp.httpStatus .badRequest = 400 := by
  refine ⟨?_, rfl⟩
  unfold write_github_file
  have hfal : optFalsy (some k) = false := by
    simp [optFalsy, List.isEmpty_iff, hne]
  have hmb : (optFalsy b.path || optFalsy b.content) = true := by
    rcases hmiss with h | h <;> simp [h, optFalsy]
  simp only [hk, hfal, hu, hmb, Bool.false_eq_true, if_false, if_true]

/-- C10 witness: an authenticated request whose body carries an empty content
string gets a 400 response and an empty call trace. -/
theorem claim_C10_witness :
    write_github_file (some (pystr "key-1")) none usersFx
      (.ok ⟨some (pystr "a.md"), some [], none⟩) ⟨404, none, 201, none⟩ =
      (.badRequest, []) :=
  (claim_C10_empty_fields (some (pystr "key-1")) none usersFx (pystr "key-1")
    ⟨pystr "alice", pystr "2024-01-01"⟩ ⟨some (pystr "a.md"), some [], none⟩
    ⟨404, none, 201, none⟩ (by decide) (by decide) (by decide) (Or.inr rfl)).1

/-- The existence lookup yields a revision hash: it returned HTTP 200 and its
body's sha field holds that hash (a revision hash is a nonempty string; GitHub
hashes are 40 hex characters). -/
def lookupYieldsSha (gh : GhWriteEnv) (h : PyStr) : Prop :=
  gh.lookupStatus = 200 ∧ gh.lookupSha = some h ∧ h ≠ []

/-- C2 (amended): the proxy write first looks up the existing revision for
the path; when the lookup does not return 200 the outbound write omits the
revision hash (create semantics); when it yields a revision hash the write
includes exactly that hash (update semantics); and — provided the lookup
response itself parsed — an error response to the write with status 400-599
is surfaced with the upstream status code preserved.  (The claim's "every
non-2xx response" is narrowed to 400-599: a 3xx write response is not raised
by the HTTP layer and falls through to response parsing, per the
counterexample.) -/
theorem claim_C2_commit_semantics (x_api_key api_key : Option PyStr)
    (users : PyStr → Option UserConfig) (k : PyStr) (u : UserConfig)
    (hk : effectiveKey x_api_key api_key = some k) (hne : k ≠ [])
    (hu : users k = some u)
    (p c : PyStr) (hpne : p ≠ []) (hcne : c ≠ []) (m : Option PyStr) (gh : GhWriteEnv) :
    (gh.lookupStatus ≠ 200 →
      (write_github_file x_api_key api_key users (.ok ⟨some p, some c, m⟩) gh).2 =
        [GhCall.contentsGet p, GhCall.contentsPut p
          ⟨m.getD (pystr "Add " ++ p), b64encode c, pystr "main", none⟩]) ∧
    (∀ h, lookupYieldsSha gh h →
      (write_github_file x_api_key api_key users (.ok ⟨some p, some c, m⟩) gh).2 =
        [GhCall.contentsGet p, GhCall.contentsPut p
          ⟨m.getD (pystr "Add " ++ p), b64encode c, pystr "main", some h⟩]) ∧
    (¬ (gh.lookupStatus = 200 ∧ gh.lookupSha = none) →
      400 ≤ gh.putStatus → gh.putStatus < 600 →
      (write_github_file x_api_key api_key users (.ok ⟨some p, some c, m⟩) gh).1 =
        .githubApiError gh.putStatus ∧
      ((write_github_file x_api_key api_key users
          (.ok ⟨some p, some c, m⟩) gh).1).httpStatus = gh.putStatus) := by
  have hfal : optFalsy (some k) = false := by
    simp [optFalsy, List.isEmpty_iff, hne]
  have hfp : optFalsy (some p) = false := by
    simp [optFalsy, List.isEmpty_iff, hpne]
  have hfc : optFalsy (some c) = false := by
    simp [optFalsy, List.isEmpty_iff, hcne]
  refine ⟨?_, ?_, ?_⟩
  · intro h200
    unfold write_github_file
    simp only [hk, hfal, hu, hfp, hfc, Bool.or_self, Bool.false_eq_true, if_false,
      if_neg (by simp [h200] : ¬ (gh.lookupStatus = 200 ∧ gh.lookupSha = none)),
      if_neg h200]
    split <;> simp
    split <;> simp
  · rintro h ⟨h200, hsha, hhne⟩
    unfold write_github_file
    simp only [hk, hfal, hu, hfp, hfc, Bool.or_self, Bool.false_eq_true, if_false,
      hsha, if_pos h200, if_neg hhne]
    rw [if_neg (by simp : ¬ (gh.lookupStatus = 200 ∧ (some h : Option PyStr) = none))]
    split <;> simp
    split <;> simp
  · intro hlk h4 h6
    unfold write_github_file
    simp only [hk, hfal, hu, hfp, hfc, Bool.or_self, Bool.false_eq_true, if_false,
      if_neg hlk, if_pos (And.intro h4 h6)]
    constructor <;> trivial

/-- C2 witness: with a known revision abc123 the outbound write includes
exactly that hash, and an upstream 422 on the write is echoed as a 422
error response. -/
theorem claim_C2_witness :
    (write_github_file (some (pystr "key-1")) none usersFx
        (.ok ⟨some (pystr "a.md"), some (pystr "x"), none⟩)
        ⟨200, some (pystr "abc123"), 201, some (pystr "s1", pystr "s2")⟩).2 =
      [GhCall.contentsGet (pystr "a.md"),
       GhCall.contentsPut (pystr "a.md")
         ⟨pystr "Add " ++ pystr "a.md", b64encode (pystr "x"),
           pystr "main", some (pystr "abc123")⟩] ∧
    (write_github_file (some (pystr "key-1")) none usersFx
        (.ok ⟨some (pystr "a.md"), some (pystr "x"), none⟩) ⟨404, none, 422, none⟩).1 =
      .githubApiError 422 := by
  constructor
  · exact (claim_C2_commit_semantics (some (pystr "key-1")) none usersFx (pystr "key-1")
      ⟨pystr "alice", pystr "2024-01-01"⟩ (by decide) (by decide) (by decide)
      (pystr "a.md") (pystr "x") (by decide) (by decide) none
      ⟨200, some (pystr "abc123"), 201, some (pystr "s1", pystr "s2")⟩).2.1
      (pystr "abc123") ⟨rfl, rfl, by decide⟩
  · exact ((claim_C2_commit_semantics (some (pystr "key-1")) none usersFx (pystr "key-1")
      ⟨pystr "alice", pystr "2024-01-01"⟩ (by decide) (by decide) (by decide)
      (pystr "a.md") (pystr "x") (by decide) (by decide) none
      ⟨404, none, 422, none⟩).2.2 (by decide) (by norm_num) (by norm_num)).1

/-- C2 counterexample: a 304 write response is non-2xx, yet the endpoint does
not return a RemoteSyncError preserving 304: `raise_for_status` only raises
for 400-599, so the handler proceeds to parse the (bodyless) response and the
generic exception arm answers 500. -/
theorem claim_C2_counterexample :
    (write_github_file (some (pystr "key-1")) none usersFx
        (.ok ⟨some (pystr "a.md"), some (pystr "x"), none⟩) ⟨404, none, 304, none⟩).1 =
      .serverError (pystr "JSONDecodeError") ∧
    ¬ (200 ≤ 304 ∧ 304 < 300) ∧
    (write_github_file (some (pystr "key-1")) none usersFx
        (.ok ⟨some (pystr "a.md"), some (pystr "x"), none⟩) ⟨404, none, 304, none⟩).1 ≠
      .githubApiError 304 ∧
    ((write_github_file (some (pystr "key-1")) none usersFx
        (.ok ⟨some (pystr "a.md"), some (pystr "x"), none⟩)
        ⟨404, none, 304, none⟩).1).httpStatus = 500 := by
  exact ⟨by decide, by decide, by decide, by decide⟩

/-- The proxy-write response classifies as past the gate whenever the gate
admits the credential, whatever the body and the upstream responses. -/
theorem write_authClass_passed (x q : Option PyStr) (users : PyStr → Option UserConfig)
    (body : Except PyStr WriteBodyJson) (gh : GhWriteEnv) (k : PyStr) (u : UserConfig)
    (hk : effectiveKey x q = some k) (hne : k ≠ []) (hu : users k = some u) :
    (write_github_file x q users body gh).1.authClass = .passed := by
  unfold write_github_file
  have hfal : optFalsy (some k) = false := by simp [optFalsy, List.isEmpty_iff, hne]
  simp only [hk, hfal, hu, Bool.false_eq_true, if_false]
  cases body with
  | error e => rfl
  | ok b =>
    repeat' split
    all_goals rfl

/-- The proxy-read response classifies as past the gate whenever the gate
admits the credential. -/
theorem read_authClass_passed (rp : PyStr) (x q : Option PyStr)
    (users : PyStr → Option UserConfig) (ghr : GhReadEnv) (k : PyStr) (u : UserConfig)
    (hk : effectiveKey x q = some k) (hne : k ≠ []) (hu : users k = some u) :
    (read_github_file rp x q users ghr).1.authClass = .passed := by
  unfold read_github_file
  have hfal : optFalsy (some k) = false := by simp [optFalsy, List.isEmpty_iff, hne]
  simp only [hk, hfal, hu, Bool.false_eq_true, if_false]
  repeat' split
  all_goals rfl

/-- The spiral-date response classifies as past the gate whenever the gate
admits the credential. -/
theorem spiral_authClass_passed (x q : Option PyStr) (users : PyStr → Option UserConfig)
    (td fmt : Option PyStr) (today : Date) (now_iso : PyStr) (k : PyStr) (u : UserConfig)
    (hk : effectiveKey x q = some k) (hne : k ≠ []) (hu : users k = some u) :
    (get_spiral_date x q users td fmt today now_iso).authClass = .passed := by
  unfold get_spiral_date
  have hfal : optFalsy (some k) = false := by simp [optFalsy, List.isEmpty_iff, hne]
  simp only [hk, hfal, hu, Bool.false_eq_true, if_false]
  repeat' split
  all_goals rfl

/-- C8 (amended): the three credential-gated endpoints classify every request
identically on authentication; when the effective credential — the header if
truthy, else the query parameter — is absent or empty, each responds 401 with
no upstream call; when it is nonempty but not recognized, each responds 403
with no upstream call; and a nonempty header credential makes the query
parameter irrelevant (header precedence).  (The claim's "supplied" is
narrowed to "supplied and nonempty": an empty header or query credential is
treated as absent by the truthiness tests, per the counterexample.) -/
theorem claim_C8_auth_gate (users : PyStr → Option UserConfig) (x q : Option PyStr) :
    (∀ (body : Except PyStr WriteBodyJson) (gh : GhWriteEnv) (rp : PyStr)
        (ghr : GhReadEnv) (td fmt : Option PyStr) (today : Date) (now_iso : PyStr),
      (write_github_file x q users body gh).1.authClass =
        (read_github_file rp x q users ghr).1.authClass ∧
      (write_github_file x q users body gh).1.authClass =
        (get_spiral_date x q users td fmt today now_iso).authClass) ∧
    (optFalsy (effectiveKey x q) = true →
      ∀ (body : Except PyStr WriteBodyJson) (gh : GhWriteEnv) (rp : PyStr)
          (ghr : GhReadEnv) (td fmt : Option PyStr) (today : Date) (now_iso : PyStr),
        write_github_file x q users body gh = (.authRequired, []) ∧
        read_github_file rp x q users ghr = (.authRequired, []) ∧
        get_spiral_date x q users td fmt today now_iso = .authRequired ∧
        WriteResp.httpStatus .authRequired = 401) ∧
    (∀ k, effectiveKey x q = some k → k ≠ [] → users k = none →
      ∀ (body : Except PyStr WriteBodyJson) (gh : GhWriteEnv) (rp : PyStr)
          (ghr : GhReadEnv) (td fmt : Option PyStr) (today : Date) (now_iso : PyStr),
        write_github_file x q users body gh = (.authInvalid, []) ∧
        read_github_file rp x q users ghr = (.authInvalid, []) ∧
        get_spiral_date x q users td fmt today now_iso = .authInvalid ∧
        WriteResp.httpStatus .authInvalid = 403) ∧
    (∀ h, x = some h → h ≠ [] →
      ∀ (q2 : Option PyStr) (body : Except PyStr WriteBodyJson) (gh : GhWriteEnv)
          (rp : PyStr) (ghr : GhReadEnv) (td fmt : Option PyStr) (today : Date)
          (now_iso : PyStr),
        write_github_file x q users body gh = write_github_file x q2 users body gh ∧
        read_github_file rp x q users ghr = read_github_file rp x q2 users ghr ∧
        get_spiral_date x q users td fmt today now_iso =
          get_spiral_date x q2 users td fmt today now_iso) := by
  refine ⟨?_, ?_, ?_, ?_⟩
  · intro body gh rp ghr td fmt today now_iso
    rcases hk : effectiveKey x q with _ | k
    · unfold write_github_file read_github_file get_spiral_date
      simp [hk, optFalsy]
      constructor <;> rfl
    · by_cases hk0 : k = []
      · subst hk0
        unfold write_github_file read_github_file get_spiral_date
        simp [hk, optFalsy]
        constructor <;> rfl
      · rcases hu : users k with _ | u
        · unfold write_github_file read_github_file get_spiral_date
          have hfal : optFalsy (some k) = false := by
            simp [optFalsy, List.isEmpty_iff, hk0]
          simp only [hk, hfal, hu, Bool.false_eq_true, if_false]
          constructor <;> rfl
        · rw [write_authClass_passed x q users body gh k u hk hk0 hu,
            read_authClass_passed rp x q users ghr k u hk hk0 hu,
            spiral_authClass_passed x q users td fmt today now_iso k u hk hk0 hu]
          constructor <;> rfl
  · intro hfal body gh rp ghr td fmt today now_iso
    unfold write_github_file read_github_file get_spiral_date
    simp only [hfal, if_true]
    exact ⟨trivial, trivial, trivial, rfl⟩
  · intro k hk hk0 hu body gh rp ghr td fmt today now_iso
    unfold write_github_file read_github_file get_spiral_date
    have hfal : optFalsy (some k) = false := by
      simp [optFalsy, List.isEmpty_iff, hk0]
    simp only [hk, hfal, hu, Bool.false_eq_true, if_false]
    exact ⟨trivial, trivial, trivial, rfl⟩
  · intro h hx hne q2 body gh rp ghr td fmt today now_iso
    subst hx
    have he : effectiveKey (some h) q = effectiveKey (some h) q2 := by
      simp [effectiveKey, hne]
    unfold write_github_file read_github_file get_spiral_date
    rw [he]
    exact ⟨rfl, rfl, rfl⟩

/-- C8 counterexample: a supplied-but-empty header credential that no user
record matches is answered 401, not the 403 the claim requires for a supplied
but unrecognized credential: the `or`-chain and the `if not key` test treat
the empty string as absent. -/
theorem claim_C8_counterexample :
    effectiveKey (some []) none = none ∧
    usersFx [] = none ∧
    (write_github_file (some []) none usersFx
        (.ok ⟨some (pystr "a.md"), some (pystr "x"), none⟩)
        ⟨404, none, 201, some (pystr "s1", pystr "s2")⟩).1 = .authRequired ∧
    ((write_github_file (some []) none usersFx
        (.ok ⟨some (pystr "a.md"), some (pystr "x"), none⟩)
        ⟨404, none, 201, some (pystr "s1", pystr "s2")⟩).1).httpStatus = 401 ∧
    (401 : Nat) ≠ 403 := by
  exact ⟨by decide, by decide, by decide, by decide, by decide⟩

/-- C8 witness: no credential at all gives 401 with an empty trace on the
write endpoint, an unrecognized nonempty credential gives 403 with an empty
trace on the read endpoint, and with a nonempty header the query parameter
does not affect the spiral endpoint. -/
theorem claim_C8_witness :
    write_github_file none none usersFx
      (.ok ⟨some (pystr "a.md"), some (pystr "x"), none⟩) ⟨404, none, 201, none⟩ =
      (.authRequired, []) ∧
    read_github_file (pystr "a.md") (some (pystr "bad")) none usersFx
      ⟨200, some (pystr "eA=="), pystr "s", 1⟩ = (.authInvalid, []) ∧
    get_spiral_date (some (pystr "key-1")) (some (pystr "zzz")) usersFx none
      (some (pystr "short")) ⟨2024, 1, 1⟩ (pystr "t") =
      get_spiral_date (some (pystr "key-1")) none usersFx none
        (some (pystr "short")) ⟨2024, 1, 1⟩ (pystr "t") := by
  refine ⟨?_, ?_, ?_⟩
  · exact ((claim_C8_auth_gate usersFx none none).2.1 (by decide)
      (.ok ⟨some (pystr "a.md"), some (pystr "x"), none⟩) ⟨404, none, 201, none⟩
      (pystr "a.md") ⟨200, some (pystr "eA=="), pystr "s", 1⟩ none none
      ⟨2024, 1, 1⟩ (pystr "t")).1
  · exact ((claim_C8_auth_gate usersFx (some (pystr "bad")) none).2.2.1 (pystr "bad")
      (by decide) (by decide) (by decide)
      (.ok ⟨some (pystr "a.md"), some (pystr "x"), none⟩) ⟨404, none, 201, none⟩
      (pystr "a.md") ⟨200, some (pystr "eA=="), pystr "s", 1⟩ none none
      ⟨2024, 1, 1⟩ (pystr "t")).2.1
  · exact ((claim_C8_auth_gate usersFx (some (pystr "key-1")) (some (pystr "zzz"))).2.2.2
      (pystr "key-1") rfl (by decide) none
      (.ok ⟨some (pystr "a.md"), some (pystr "x"), none⟩) ⟨404, none, 201, none⟩
      (pystr "a.md") ⟨200, some (pystr "eA=="), pystr "s", 1⟩ none
      (some (pystr "short")) ⟨2024, 1, 1⟩ (pystr "t")).2.2

/-- Shared concrete webhook environment for concrete evaluations: fixed
display name, clock strings, and succeeding outbound calls. -/
def envFx : WebhookEnv :=
  ⟨fun _ => pystr "adge", pystr "2025-01-02", pystr "2025-01-02T03:04:05-05:00",
    .ok (), .ok (), .ok (pystr "photos/file_7.jpg"), .ok (pystr "IMGDATA")⟩

/-- C9 (code bug): the snapshot's "smart-quote normalization" line is inert.
On a text message containing the right single quotation mark U+2019 the
handler writes the character through unchanged under the prepended metadata
block: in the snapshot the `replace` calls of line 102 are
`replace("'", "'")` twice (identities) plus a replacement of a garbled
fifteen-character literal, so no smart quote is ever mapped to its ASCII
equivalent as the claim and the spec describe. -/
theorem claim_C9_smart_quotes_not_normalized :
    pyNormalizeQuotes (pystr "it" ++ [Char.ofNat 8217] ++ pystr "s") =
      pystr "it" ++ [Char.ofNat 8217] ++ pystr "s" ∧
    (webhookRun envFx initialStore
        (.ok (.textMsg 1 (pystr "it" ++ [Char.ofNat 8217] ++ pystr "s")))).store.files
        (pystr "/tmp/scrolls/scroll.md") =
      some (pystr "---\n" ++
        yamlDump [(pystr "title", pystr "scroll.md"), (pystr "author", pystr "adge"),
          (pystr "date", pystr "2025-01-02"),
          (pystr "timestamp", pystr "2025-01-02T03:04:05-05:00")] ++
        pystr "---\n\n" ++ (pystr "it" ++ [Char.ofNat 8217] ++ pystr "s")) ∧
    pystr "it" ++ [Char.ofNat 8217] ++ pystr "s" ≠ pystr "it's" := by
  exact ⟨by decide, by decide, by decide⟩
